import Mathlib

/-!
Shallow embedding of the db-access-utils data-access layer: the
`DBOperation` descriptor, the `DBResult` container, the
`PostgresDBConfig` configuration object, and the `PostgresDB`
execution engine (`query`, `operation`, `transaction`), modelled
directly from `src/database/DBOperation.js`, `src/database/PostgresDB.js`,
`src/database/DBResult.js` and `src/configuration/PostgresDBConfig.js`.

JavaScript dynamic values are modelled by `JsValue`; the node-pg pool and
client are modelled by environments (`Env`, `ClientEnv`) supplying the
outcome of each connection lease, statement round-trip and marshaller
call.  Every engine method returns its outcome (`Except JsError _`)
together with the ordered trace of observable events (lease acquisition,
statement issuance, lease release).
-/

/-- JavaScript runtime values, as far as this library inspects them:
`null`, `undefined`, numbers, strings, arrays, and functions (identified
by an opaque tag resolved against the environment). -/
inductive JsValue where
  | null
  | undefined
  | number (n : Int)
  | string (s : String)
  | array (xs : List JsValue)
  | function (tag : Nat)
deriving Repr

/-- JavaScript `Array.isArray`. -/
def jsIsArray : JsValue → Bool
  | .array _ => true
  | _ => false

/-- JavaScript `typeof v === 'function'`. -/
def jsIsFunction : JsValue → Bool
  | .function _ => true
  | _ => false

/-- JavaScript truthiness, on the values this library tests with `||`
and `if (...)`: `null`, `undefined`, `0` and `''` are falsy; arrays and
functions are always truthy. -/
def jsTruthy : JsValue → Bool
  | .null => false
  | .undefined => false
  | .number n => n != 0
  | .string s => s != ""
  | .array _ => true
  | .function _ => true

/-- JavaScript property access `v.length`: defined for arrays and
strings, `undefined` otherwise. -/
def jsLength : JsValue → JsValue
  | .array xs => .number xs.length
  | .string s => .number s.length
  | _ => .undefined

/-- Database operation descriptor (`DBOperation.js`): a statement plus
the normalized `parameters` and `marshaller` fields. -/
structure DBOperation where
  statement : String
  parameters : JsValue
  marshaller : JsValue
deriving Repr

/-- The `opts` argument of the `DBOperation` constructor. -/
structure DBOperationOpts where
  parameters : JsValue
  marshaller : JsValue
deriving Repr

/-- The `DBOperation` constructor (`DBOperation.js` lines 33-37):
`parameters` is kept only when `Array.isArray(opts.parameters)`, else
`null`; `marshaller` only when `typeof opts.marshaller === 'function'`,
else `null`. -/
def mkDBOperation (statement : String) (opts : DBOperationOpts) : DBOperation :=
  { statement := statement
    parameters := if jsIsArray opts.parameters then opts.parameters else .null
    marshaller := if jsIsFunction opts.marshaller then opts.marshaller else .null }

/-- Node-pg native result shape (`pgResult.rows`, `.rowCount`, `.fields`). -/
structure PgResult where
  rows : JsValue
  rowCount : JsValue
  fields : JsValue
deriving Repr

/-- Database query result container (`DBResult.js`). -/
structure DBResult where
  rows : JsValue
  rowCount : JsValue
  fields : JsValue
deriving Repr

/-- `PostgresDB.unmarshallPgResult`: builds a fresh `DBResult` and copies
`rows`, `rowCount` and `fields` over from the node-pg result via the
setters. -/
def unmarshallPgResult (pgResult : PgResult) : DBResult :=
  { rows := pgResult.rows
    rowCount := pgResult.rowCount
    fields := pgResult.fields }

/-- The errors this library can raise: the three typed wrappers from
`src/error` (each with a message and an optional wrapped cause), plus
the raw JavaScript failures that can cross the API boundary — an
arbitrary thrown value (`userError`), a `ReferenceError` on an undefined
identifier, and a `TypeError` on calling a non-function. -/
inductive JsError where
  | dbConnectionError (message : String) (cause : Option JsError)
  | queryExecutionError (message : String) (cause : Option JsError)
  | dbResultMarshallerError (message : String) (cause : Option JsError)
  | referenceError (name : String)
  | typeError (message : String)
  | userError (value : JsValue)
deriving Repr

/-- A statement round-trip as handed to `client.query`: the statement
text and, optionally, the parameters argument (`none` means `client.query`
was called without a second argument). -/
structure QueryCall where
  statement : String
  parameters : Option JsValue
deriving Repr

/-- Observable events of one engine call, in order. -/
inductive Event where
  | leaseAcquire
  | leaseRelease
  | statementIssued (call : QueryCall)
deriving Repr

/-- Leased pool client: resolves each `client.query` call to a node-pg
result or a thrown driver error. -/
structure ClientEnv where
  query : String → Option JsValue → Except JsError PgResult

/-- Connected-pool environment: the outcome of `pool.connect()` and the
behaviour of every marshaller function, resolved by its `JsValue.function`
tag from the normalized `DBResult` argument to a returned value or a
thrown error. -/
structure Env where
  connect : Except JsError ClientEnv
  fns : Nat → DBResult → Except JsError JsValue

/-- PostgreSQL database handle (`PostgresDB.js`): `pool` is `null` until
`connect()` has installed a pool. -/
structure PostgresDB where
  pool : Option Env

/-- JavaScript call `marshaller(dbResult)`: resolves a function value
against the environment; calling a non-function raises a `TypeError`. -/
def callFn (env : Env) (fn : JsValue) (dbResult : DBResult) : Except JsError JsValue :=
  match fn with
  | .function tag => env.fns tag dbResult
  | _ => .error (.typeError "is not a function")

/-- The not-connected message thrown by `query`, `operation` and
`transaction` when `this.pool === null`. -/
def notConnectedMsg : String :=
  "Not connected to PostgreSQL database. Please check that that database client pool is connected by calling the connect() method."

/-- Message of the `QueryExecutionError` raised when a single query or
operation statement fails. -/
def queryErrMsg : String := "An error occurred executing query"

/-- Message of the `QueryExecutionError` raised when a transaction
fails. -/
def txErrMsg : String := "An error occurred executing a database transaction"

/-- Message of the `QueryExecutionError` raised when the `ROLLBACK`
statement itself fails. -/
def rollbackErrMsg : String := "Error occurred while rolling back DB transaction"

/-- The branch `if (parameters === null || parameters.length === 0)`
shared by `PostgresDB.query` and `PostgresDB.operation`: call the
statement without parameters when they are `null` or have length `0`,
and with the parameters value otherwise. -/
def paramCall (statement : String) (parameters : JsValue) : QueryCall :=
  match parameters with
  | .null => { statement := statement, parameters := none }
  | p =>
    match jsLength p with
    | .number 0 => { statement := statement, parameters := none }
    | _ => { statement := statement, parameters := some p }

/-- `PostgresDB.query` (`PostgresDB.js` lines 210-238). -/
def PostgresDB.query (db : PostgresDB) (statement : String) (optsParameters : JsValue) :
    Except JsError DBResult × List Event :=
  let parameters := if jsIsArray optsParameters then optsParameters else JsValue.null
  match db.pool with
  | none => (.error (.dbConnectionError notConnectedMsg none), [])
  | some env =>
    match env.connect with
    | .error e => (.error (.dbConnectionError "Database unavailable" (some e)), [])
    | .ok client =>
      let call := paramCall statement parameters
      let trace := [Event.leaseAcquire, Event.statementIssued call, Event.leaseRelease]
      match client.query call.statement call.parameters with
      | .error e => (.error (.queryExecutionError queryErrMsg (some e)), trace)
      | .ok pg => (.ok (unmarshallPgResult pg), trace)

/-- Outcome of `PostgresDB.operation`: the raw normalized result or the
marshaller's return value. -/
inductive OpResult where
  | dbResult (result : DBResult)
  | marshalled (value : JsValue)
deriving Repr

/-- `PostgresDB.operation` (`PostgresDB.js` lines 254-287).  The runtime
override `opts.parameters` replaces the stored parameters when it is an
array; the marshaller is invoked after the `finally` block has released
the client, outside any `try`, so a marshaller throw propagates as-is. -/
def PostgresDB.operation (db : PostgresDB) (operation : DBOperation)
    (optsParameters : JsValue) : Except JsError OpResult × List Event :=
  let parameters :=
    if jsIsArray optsParameters then optsParameters else operation.parameters
  let marshaller := operation.marshaller
  match db.pool with
  | none => (.error (.dbConnectionError notConnectedMsg none), [])
  | some env =>
    match env.connect with
    | .error e => (.error (.dbConnectionError "Database unavailable" (some e)), [])
    | .ok client =>
      let call := paramCall operation.statement parameters
      let trace := [Event.leaseAcquire, Event.statementIssued call, Event.leaseRelease]
      match client.query call.statement call.parameters with
      | .error e => (.error (.queryExecutionError queryErrMsg (some e)), trace)
      | .ok pg =>
        let dbResult := unmarshallPgResult pg
        if jsTruthy marshaller then
          ((callFn env marshaller dbResult).map .marshalled, trace)
        else
          (.ok (.dbResult dbResult), trace)

/-- One entry of the `operations` argument of `PostgresDB.transaction`:
an operation descriptor plus the invocation's own `parameters` value
(`undefined` when absent). -/
structure TxOp where
  operation : DBOperation
  parameters : JsValue
deriving Repr

/-- The assignment `parameters = operation.parameters || parameters`
inside the transaction loop (`PostgresDB.js` line 173): the operation's
stored parameters when truthy, else the invocation's parameters. -/
def txChosenParams (t : TxOp) : JsValue :=
  if jsTruthy t.operation.parameters then t.operation.parameters else t.parameters

/-- The statement round-trip the transaction loop issues for one entry:
the branch `if (Array.isArray(parameters) && parameters.length > 0)`
applied to the chosen parameters. -/
def txCallOf (t : TxOp) : QueryCall :=
  let parameters := txChosenParams t
  match parameters with
  | .array xs =>
    if 0 < xs.length then { statement := t.operation.statement, parameters := some parameters }
    else { statement := t.operation.statement, parameters := none }
  | _ => { statement := t.operation.statement, parameters := none }

/-- One iteration of the transaction loop, up to the `results.push`:
run the statement, normalize, and apply the marshaller when truthy.  Any
thrown value (driver error or marshaller throw) propagates raw to the
enclosing `try`. -/
def txOpResult (env : Env) (client : ClientEnv) (t : TxOp) : Except JsError OpResult :=
  let call := txCallOf t
  match client.query call.statement call.parameters with
  | .error e => .error e
  | .ok pg =>
    let result := unmarshallPgResult pg
    if jsTruthy t.operation.marshaller then
      (callFn env t.operation.marshaller result).map .marshalled
    else
      .ok (.dbResult result)

/-- The sequential `for` loop of `PostgresDB.transaction` (lines
166-187): stops at the first thrown value, accumulating the results and
the trace of issued statements. -/
def txLoop (env : Env) (client : ClientEnv) : List TxOp → Except JsError (List OpResult) × List Event
  | [] => (.ok [], [])
  | t :: rest =>
    match txOpResult env client t with
    | .error e => (.error e, [.statementIssued (txCallOf t)])
    | .ok r =>
      let step := txLoop env client rest
      (step.1.map fun rs => r :: rs, .statementIssued (txCallOf t) :: step.2)

/-- The `rollback` closure plus the tail of the `catch` block of
`PostgresDB.transaction` (lines 140-146 and 191-193): issue `ROLLBACK`;
if it fails, throw a `QueryExecutionError` wrapping the rollback failure
(the original cause `e` is dropped); if it succeeds, throw a
`QueryExecutionError` wrapping the original cause. -/
def txRollback (client : ClientEnv) (e : JsError) : JsError × List Event :=
  match client.query "ROLLBACK" none with
  | .error rollbackFailure =>
    (.queryExecutionError rollbackErrMsg (some rollbackFailure),
     [.statementIssued { statement := "ROLLBACK", parameters := none }])
  | .ok _ =>
    (.queryExecutionError txErrMsg (some e),
     [.statementIssued { statement := "ROLLBACK", parameters := none }])

/-- `PostgresDB.transaction` (`PostgresDB.js` lines 138-199).  Note the
lease-failure branch: the source throws `new DatabaseConnectionError(...)`
but no identifier of that name exists in the module, so the evaluation of
the `throw` expression itself raises a `ReferenceError`. -/
def PostgresDB.transaction (db : PostgresDB) (operations : List TxOp) :
    Except JsError (List OpResult) × List Event :=
  match db.pool with
  | none => (.error (.dbConnectionError notConnectedMsg none), [])
  | some env =>
    match env.connect with
    | .error _ => (.error (.referenceError "DatabaseConnectionError"), [])
    | .ok client =>
      match client.query "BEGIN" none with
      | .error e =>
        let rb := txRollback client e
        (.error rb.1,
         Event.leaseAcquire :: Event.statementIssued { statement := "BEGIN", parameters := none } ::
           (rb.2 ++ [Event.leaseRelease]))
      | .ok _ =>
        let step := txLoop env client operations
        match step.1 with
        | .error e =>
          let rb := txRollback client e
          (.error rb.1,
           Event.leaseAcquire :: Event.statementIssued { statement := "BEGIN", parameters := none } ::
             (step.2 ++ rb.2 ++ [Event.leaseRelease]))
        | .ok results =>
          match client.query "COMMIT" none with
          | .error e =>
            let rb := txRollback client e
            (.error rb.1,
             Event.leaseAcquire :: Event.statementIssued { statement := "BEGIN", parameters := none } ::
               (step.2 ++ [Event.statementIssued { statement := "COMMIT", parameters := none }] ++
                 rb.2 ++ [Event.leaseRelease]))
          | .ok _ =>
            (.ok results,
             Event.leaseAcquire :: Event.statementIssued { statement := "BEGIN", parameters := none } ::
               (step.2 ++ [Event.statementIssued { statement := "COMMIT", parameters := none },
                 Event.leaseRelease]))

/-- The `opts` object accepted by the `PostgresDBConfig` constructor. -/
structure PostgresPoolOpts where
  maxClients : JsValue
  idleTimeoutMillis : JsValue
  connectionTimeoutMillis : JsValue
deriving Repr

/-- PostgreSQL connection configuration (`PostgresDBConfig.js`),
restricted to the fields the claims concern plus the base-class data. -/
structure PostgresDBConfig where
  vendor : String
  hostname : JsValue
  port : JsValue
  database : JsValue
  username : JsValue
  password : JsValue
  maxClients : JsValue
  idleTimeoutMillis : JsValue
  connectionTimeoutMillis : JsValue
deriving Repr

/-- The JavaScript idiom `opts && opts.field || deflt` for a present
`opts` object: the field when truthy, else the default. -/
def jsOrDefault (value deflt : JsValue) : JsValue :=
  if jsTruthy value then value else deflt

/-- The `PostgresDBConfig` constructor (`PostgresDBConfig.js` lines
35-41): each pool tunable is `opts && opts.field || default`, which
falls back to the default whenever `opts` is absent or the supplied
field value is falsy. -/
def mkPostgresDBConfig (hostname port database username password : JsValue)
    (opts : Option PostgresPoolOpts) : PostgresDBConfig :=
  { vendor := "postgres"
    hostname := hostname
    port := port
    database := database
    username := username
    password := password
    maxClients :=
      match opts with
      | none => .number 10
      | some o => jsOrDefault o.maxClients (.number 10)
    idleTimeoutMillis :=
      match opts with
      | none => .number 10000
      | some o => jsOrDefault o.idleTimeoutMillis (.number 10000)
    connectionTimeoutMillis :=
      match opts with
      | none => .number 0
      | some o => jsOrDefault o.connectionTimeoutMillis (.number 0) }

/-- Event classifier: lease release. -/
def Event.isRelease : Event → Bool
  | .leaseRelease => true
  | _ => false

/-- Event classifier: lease acquisition. -/
def Event.isAcquire : Event → Bool
  | .leaseAcquire => true
  | _ => false

/-- Event classifier: statement issuance. -/
def Event.isStatementIssued : Event → Bool
  | .statementIssued _ => true
  | _ => false

/-- Whether an error is, or transitively wraps through its `cause`
chain, a thrown user value carrying the given string marker. -/
def JsError.containsUserString (s : String) : JsError → Bool
  | .dbConnectionError _ (some c) => c.containsUserString s
  | .queryExecutionError _ (some c) => c.containsUserString s
  | .dbResultMarshallerError _ (some c) => c.containsUserString s
  | .userError (.string t) => t = s
  | _ => false

/-- A successful empty node-pg result used by the concrete scenarios. -/
def okPg : PgResult :=
  { rows := .array [], rowCount := .number 0, fields := .array [] }

/-- A client whose every statement succeeds with `okPg`. -/
def okClient : ClientEnv :=
  { query := fun _ _ => .ok okPg }

/-- An environment whose lease and statements all succeed and whose
marshallers all return a fixed string. -/
def envAllOk : Env :=
  { connect := .ok okClient, fns := fun _ _ => .ok (.string "marshalled") }

/-- An environment whose lease and statements succeed but whose every
marshaller call throws the user value `"marshal boom"`. -/
def marshThrowEnv : Env :=
  { connect := .ok okClient, fns := fun _ _ => .error (.userError (.string "marshal boom")) }

/-- An operation with no stored parameters whose marshaller is the
function with tag `0`. -/
def marshOp : DBOperation :=
  mkDBOperation "SELECT 1" { parameters := .undefined, marshaller := .function 0 }

/-- A client for the rollback-failure scenario: statement `"S"` throws
the user value `"original boom"`, the `ROLLBACK` statement throws the
user value `"rollback boom"`, and everything else succeeds. -/
def rollbackFailClient : ClientEnv :=
  { query := fun s _ =>
      if s = "S" then .error (.userError (.string "original boom"))
      else if s = "ROLLBACK" then .error (.userError (.string "rollback boom"))
      else .ok okPg }

/-- Environment wrapping `rollbackFailClient`, with inert marshallers. -/
def rollbackFailEnv : Env :=
  { connect := .ok rollbackFailClient, fns := fun _ _ => .ok .null }

/-- An operation with stored parameters `[1]` and no marshaller, used to
exercise parameter-override precedence. -/
def storedParamsOp : DBOperation :=
  mkDBOperation "SELECT" { parameters := .array [.number 1], marshaller := .undefined }

/-- A client for the atomicity scenario: statement `"S2"` throws the
user value `"op2 boom"` and everything else succeeds. -/
def secondOpFailClient : ClientEnv :=
  { query := fun s _ =>
      if s = "S2" then .error (.userError (.string "op2 boom"))
      else .ok okPg }

/-- Environment wrapping `secondOpFailClient`, with inert marshallers. -/
def secondOpFailEnv : Env :=
  { connect := .ok secondOpFailClient, fns := fun _ _ => .ok .null }

/-- A plain operation (no parameters, no marshaller) on the given
statement text. -/
def plainOp (statement : String) : DBOperation :=
  mkDBOperation statement { parameters := .undefined, marshaller := .undefined }

/-- A transaction entry with no invocation-level parameters. -/
def plainTxOp (statement : String) : TxOp :=
  { operation := plainOp statement, parameters := .undefined }

/-- A client for the atomicity-with-failed-rollback scenario: statement
`"S2"` throws the user value `"original boom"`, the `ROLLBACK` statement
throws the user value `"rollback boom"`, and everything else succeeds. -/
def secondOpAndRollbackFailClient : ClientEnv :=
  { query := fun s _ =>
      if s = "S2" then .error (.userError (.string "original boom"))
      else if s = "ROLLBACK" then .error (.userError (.string "rollback boom"))
      else .ok okPg }

/-- Environment wrapping `secondOpAndRollbackFailClient`, with inert
marshallers. -/
def secondOpAndRollbackFailEnv : Env :=
  { connect := .ok secondOpAndRollbackFailClient, fns := fun _ _ => .ok .null }

theorem txRollback_trace (client : ClientEnv) (e : JsError) :
    (txRollback client e).2 =
      [Event.statementIssued { statement := "ROLLBACK", parameters := none }] := by
  cases h : client.query "ROLLBACK" none <;> simp [txRollback, h]

theorem txLoop_ok (env : Env) (client : ClientEnv) (g : TxOp → OpResult) :
    ∀ ops : List TxOp, (∀ t ∈ ops, txOpResult env client t = .ok (g t)) →
      txLoop env client ops =
        (.ok (ops.map g), ops.map fun t => Event.statementIssued (txCallOf t)) := by
  intro ops
  induction ops with
  | nil => intro _; rfl
  | cons t rest ih =>
    intro h
    have ht : txOpResult env client t = .ok (g t) := h t (List.mem_cons_self _ _)
    have hrest := ih fun u hu => h u (List.mem_cons_of_mem _ hu)
    simp [txLoop, ht, hrest, Except.map]

theorem txLoop_fail (env : Env) (client : ClientEnv) (g : TxOp → OpResult) (e : JsError)
    (tf : TxOp) (post : List TxOp) (hf : txOpResult env client tf = .error e) :
    ∀ pre : List TxOp, (∀ t ∈ pre, txOpResult env client t = .ok (g t)) →
      txLoop env client (pre ++ tf :: post) =
        (.error e, (pre.map fun t => Event.statementIssued (txCallOf t)) ++
          [Event.statementIssued (txCallOf tf)]) := by
  intro pre
  induction pre with
  | nil => intro _; simp [txLoop, hf]
  | cons t rest ih =>
    intro h
    have ht : txOpResult env client t = .ok (g t) := h t (List.mem_cons_self _ _)
    have hrest := ih fun u hu => h u (List.mem_cons_of_mem _ hu)
    simp [txLoop, ht, hrest, Except.map]

theorem txLoop_trace_counts (env : Env) (client : ClientEnv) :
    ∀ ops : List TxOp, (txLoop env client ops).2.countP Event.isRelease = 0 ∧
      (txLoop env client ops).2.countP Event.isAcquire = 0 := by
  intro ops
  induction ops with
  | nil => exact ⟨rfl, rfl⟩
  | cons t rest ih =>
    cases h : txOpResult env client t with
    | error e => simp [txLoop, h, Event.isRelease, Event.isAcquire]
    | ok r =>
      simp [txLoop, h, List.countP_cons, Event.isRelease, Event.isAcquire, ih.1, ih.2]

/-- Claim C8: calling `query`, `operation` or `transaction` while `pool`
is null raises the not-connected `DBConnectionError`, with an empty
event trace: no lease is attempted and no statement is issued. -/
theorem not_connected_fails_without_lease (statement : String) (optsParameters : JsValue)
    (operation : DBOperation) (operations : List TxOp) :
    PostgresDB.query { pool := none } statement optsParameters =
      (.error (.dbConnectionError notConnectedMsg none), []) ∧
    PostgresDB.operation { pool := none } operation optsParameters =
      (.error (.dbConnectionError notConnectedMsg none), []) ∧
    PostgresDB.transaction { pool := none } operations =
      (.error (.dbConnectionError notConnectedMsg none), []) :=
  ⟨rfl, rfl, rfl⟩

/-- Claim C3 (code bug): when leasing a connection for a transaction
fails, no `BEGIN` is issued (the trace is empty), but the raised error
is a `ReferenceError` on the undefined identifier
`DatabaseConnectionError` — not a `DBConnectionError` wrapping the
cause, because `PostgresDB.js` line 156 names an error class that does
not exist in the module. -/
theorem transaction_lease_failure_raises_reference_error (operations : List TxOp)
    (e : JsError) (fns : Nat → DBResult → Except JsError JsValue) :
    PostgresDB.transaction { pool := some { connect := .error e, fns := fns } } operations =
      (.error (.referenceError "DatabaseConnectionError"), []) :=
  rfl

/-- Claim C9 (code bug): with no options the pool tunables default to
`maxClients = 10`, `idleTimeoutMillis = 10000`,
`connectionTimeoutMillis = 0`, and an absent tunable inside a supplied
options object also defaults — but explicitly passing
`idleTimeoutMillis = 0` does NOT store `0`: the `opts && opts.x || d`
idiom discards the falsy `0` and stores the default `10000`,
contradicting the documented "0 disables eviction" behaviour. -/
theorem config_defaults_and_zero_idle_timeout_overridden :
    (mkPostgresDBConfig .null .null .null .null .null none).maxClients = .number 10 ∧
    (mkPostgresDBConfig .null .null .null .null .null none).idleTimeoutMillis = .number 10000 ∧
    (mkPostgresDBConfig .null .null .null .null .null none).connectionTimeoutMillis = .number 0 ∧
    (mkPostgresDBConfig .null .null .null .null .null
        (some { maxClients := .undefined, idleTimeoutMillis := .number 0,
                connectionTimeoutMillis := .undefined })).maxClients = .number 10 ∧
    (mkPostgresDBConfig .null .null .null .null .null
        (some { maxClients := .undefined, idleTimeoutMillis := .number 0,
                connectionTimeoutMillis := .undefined })).idleTimeoutMillis = .number 10000 :=
  ⟨rfl, rfl, rfl, rfl, rfl⟩

/-- Claim C10: the `DBOperation` constructor keeps `opts.parameters`
exactly when it is an array and stores `null` otherwise, keeps
`opts.marshaller` exactly when it is a function and stores `null`
otherwise; hence every constructed operation has array-or-null
parameters and function-or-null marshaller. -/
theorem dboperation_constructor_normalizes (statement : String) (opts : DBOperationOpts) :
    (jsIsArray opts.parameters = true → (mkDBOperation statement opts).parameters = opts.parameters) ∧
    (jsIsArray opts.parameters = false → (mkDBOperation statement opts).parameters = .null) ∧
    (jsIsFunction opts.marshaller = true → (mkDBOperation statement opts).marshaller = opts.marshaller) ∧
    (jsIsFunction opts.marshaller = false → (mkDBOperation statement opts).marshaller = .null) ∧
    (jsIsArray (mkDBOperation statement opts).parameters = true ∨
      (mkDBOperation statement opts).parameters = .null) ∧
    (jsIsFunction (mkDBOperation statement opts).marshaller = true ∨
      (mkDBOperation statement opts).marshaller = .null) := by
  refine ⟨fun h => by simp [mkDBOperation, h], fun h => by simp [mkDBOperation, h],
    fun h => by simp [mkDBOperation, h], fun h => by simp [mkDBOperation, h], ?_, ?_⟩
  · cases h : jsIsArray opts.parameters with
    | true => exact Or.inl (by simp [mkDBOperation, h])
    | false => exact Or.inr (by simp [mkDBOperation, h])
  · cases h : jsIsFunction opts.marshaller with
    | true => exact Or.inl (by simp [mkDBOperation, h])
    | false => exact Or.inr (by simp [mkDBOperation, h])

theorem dboperation_constructor_normalizes_witness :
    (mkDBOperation "SELECT 1" { parameters := .array [.number 7], marshaller := .number 3 }).parameters
        = .array [.number 7] ∧
    (mkDBOperation "SELECT 1" { parameters := .array [.number 7], marshaller := .number 3 }).marshaller
        = .null :=
  ⟨(dboperation_constructor_normalizes "SELECT 1"
      { parameters := .array [.number 7], marshaller := .number 3 }).1 rfl,
   (dboperation_constructor_normalizes "SELECT 1"
      { parameters := .array [.number 7], marshaller := .number 3 }).2.2.2.1 rfl⟩

/-- Claim C2 (code bug): on an otherwise-successful query, a marshaller
that throws does NOT surface as a `DBResultMarshallerError` wrapping the
cause.  In `operation` the throw propagates raw and unwrapped (the
marshaller runs outside the try/catch, after the lease is released); in
`transaction` it is caught by the transaction catch, a `ROLLBACK` is
issued, and it surfaces wrapped in a `QueryExecutionError` — i.e.
mistaken for a query failure. -/
theorem marshaller_throw_misclassified :
    (PostgresDB.operation { pool := some marshThrowEnv } marshOp .undefined).1 =
      .error (.userError (.string "marshal boom")) ∧
    (PostgresDB.transaction { pool := some marshThrowEnv }
        [{ operation := marshOp, parameters := .undefined }]).1 =
      .error (.queryExecutionError txErrMsg (some (.userError (.string "marshal boom")))) ∧
    (PostgresDB.transaction { pool := some marshThrowEnv }
        [{ operation := marshOp, parameters := .undefined }]).2 =
      [Event.leaseAcquire,
       Event.statementIssued { statement := "BEGIN", parameters := none },
       Event.statementIssued { statement := "SELECT 1", parameters := none },
       Event.statementIssued { statement := "ROLLBACK", parameters := none },
       Event.leaseRelease] :=
  ⟨rfl, rfl, rfl⟩

/-- Counterexample to claim C1: inside a transaction the runtime
override does NOT replace the operation's stored parameters.  With
stored parameters `[1]` and override `[2]`, the transaction issues the
statement with `[1]` (line 173 reads `operation.parameters || parameters`),
whereas `operation` with the same override issues it with `[2]`. -/
theorem transaction_stored_params_shadow_override :
    (PostgresDB.transaction { pool := some envAllOk }
        [{ operation := storedParamsOp, parameters := .array [.number 2] }]).2 =
      [Event.leaseAcquire,
       Event.statementIssued { statement := "BEGIN", parameters := none },
       Event.statementIssued { statement := "SELECT", parameters := some (.array [.number 1]) },
       Event.statementIssued { statement := "COMMIT", parameters := none },
       Event.leaseRelease] ∧
    (PostgresDB.operation { pool := some envAllOk } storedParamsOp (.array [.number 2])).2 =
      [Event.leaseAcquire,
       Event.statementIssued { statement := "SELECT", parameters := some (.array [.number 2]) },
       Event.leaseRelease] :=
  ⟨rfl, rfl⟩

/-- Counterexample to claim C4: when a statement fails with cause
`"original boom"` and the subsequent `ROLLBACK` fails with cause
`"rollback boom"`, the raised error is a `QueryExecutionError` wrapping
only the rollback's cause, and the original cause is nowhere in the
raised error's cause chain — it is masked, not recoverable. -/
theorem rollback_failure_masks_original_cause :
    (PostgresDB.transaction { pool := some rollbackFailEnv } [plainTxOp "S"]).1 =
      .error (.queryExecutionError rollbackErrMsg (some (.userError (.string "rollback boom")))) ∧
    (match (PostgresDB.transaction { pool := some rollbackFailEnv } [plainTxOp "S"]).1 with
      | .error err => err.containsUserString "original boom"
      | .ok _ => true) = false :=
  ⟨rfl, rfl⟩

/-- Claim C4 (amended): when a statement in a transaction fails and the
subsequently attempted `ROLLBACK` also fails, the call raises a single
`QueryExecutionError` wrapping the rollback's cause; the original
failure's cause does not appear in the raised error (the conclusion is
independent of `e`), so it is masked rather than recoverable. -/
theorem rollback_failure_surfaces_rollback_cause (env : Env) (client : ClientEnv)
    (hconn : env.connect = .ok client) (g : TxOp → OpResult)
    (pre : List TxOp) (tf : TxOp) (post : List TxOp) (pgB : PgResult) (e rbe : JsError)
    (hbegin : client.query "BEGIN" none = .ok pgB)
    (hpre : ∀ t ∈ pre, txOpResult env client t = .ok (g t))
    (hf : txOpResult env client tf = .error e)
    (hrb : client.query "ROLLBACK" none = .error rbe) :
    (PostgresDB.transaction { pool := some env } (pre ++ tf :: post)).1 =
      .error (.queryExecutionError rollbackErrMsg (some rbe)) := by
  simp only [PostgresDB.transaction, hconn, hbegin,
    txLoop_fail env client g e tf post hf pre hpre, txRollback, hrb]

theorem rollback_failure_surfaces_rollback_cause_witness :
    (PostgresDB.transaction { pool := some rollbackFailEnv } [plainTxOp "S"]).1 =
      .error (.queryExecutionError rollbackErrMsg
        (some (.userError (.string "rollback boom")))) :=
  rollback_failure_surfaces_rollback_cause rollbackFailEnv rollbackFailClient rfl
    (fun _ => .dbResult (unmarshallPgResult okPg)) [] (plainTxOp "S") [] okPg
    (.userError (.string "original boom")) (.userError (.string "rollback boom"))
    rfl (fun t ht => absurd ht (List.not_mem_nil t)) rfl rfl

/-- Claim C5 (amended): in a transaction where the statement of the
(pre.length+1)-th operation is the first to fail (every earlier
operation succeeds), the trace is exactly: lease acquire, `BEGIN`, the
first k operation statements (k = pre.length + 1, the failing one
included), one `ROLLBACK`, lease release — so k+1 statements precede the
single rollback attempt, no later operation runs, no `COMMIT` is issued,
and no result list is returned.  The call raises a single
`QueryExecutionError`: wrapping the original cause when the `ROLLBACK`
succeeds, and wrapping the rollback's cause instead when the `ROLLBACK`
also fails. -/
theorem transaction_atomicity_on_statement_failure (env : Env) (client : ClientEnv)
    (hconn : env.connect = .ok client) (g : TxOp → OpResult)
    (pre : List TxOp) (tf : TxOp) (post : List TxOp) (pgB : PgResult) (e : JsError)
    (hbegin : client.query "BEGIN" none = .ok pgB)
    (hpre : ∀ t ∈ pre, txOpResult env client t = .ok (g t))
    (hf : client.query (txCallOf tf).statement (txCallOf tf).parameters = .error e) :
    (PostgresDB.transaction { pool := some env } (pre ++ tf :: post)).2 =
      Event.leaseAcquire ::
        Event.statementIssued { statement := "BEGIN", parameters := none } ::
        ((pre.map fun t => Event.statementIssued (txCallOf t)) ++
          [Event.statementIssued (txCallOf tf),
           Event.statementIssued { statement := "ROLLBACK", parameters := none },
           Event.leaseRelease]) ∧
    (PostgresDB.transaction { pool := some env } (pre ++ tf :: post)).2.countP
        Event.isStatementIssued = pre.length + 3 ∧
    (∀ pgR : PgResult, client.query "ROLLBACK" none = .ok pgR →
      (PostgresDB.transaction { pool := some env } (pre ++ tf :: post)).1 =
        .error (.queryExecutionError txErrMsg (some e))) ∧
    (∀ rbe : JsError, client.query "ROLLBACK" none = .error rbe →
      (PostgresDB.transaction { pool := some env } (pre ++ tf :: post)).1 =
        .error (.queryExecutionError rollbackErrMsg (some rbe))) := by
  have hfe : txOpResult env client tf = .error e := by
    simp [txOpResult, hf]
  have hloop := txLoop_fail env client g e tf post hfe pre hpre
  refine ⟨?_, ?_, ?_, ?_⟩
  · simp [PostgresDB.transaction, hconn, hbegin, hloop, txRollback_trace]
  · simp [PostgresDB.transaction, hconn, hbegin, hloop, txRollback_trace,
      List.countP_cons, List.countP_append, List.countP_map, Event.isStatementIssued,
      Function.comp]
  · intro pgR hrb
    simp [PostgresDB.transaction, hconn, hbegin, hloop, txRollback, hrb]
  · intro rbe hrb
    simp [PostgresDB.transaction, hconn, hbegin, hloop, txRollback, hrb]

theorem transaction_atomicity_on_statement_failure_witness :
    (PostgresDB.transaction { pool := some secondOpFailEnv }
        [plainTxOp "S1", plainTxOp "S2", plainTxOp "S3"]).1 =
      .error (.queryExecutionError txErrMsg (some (.userError (.string "op2 boom")))) ∧
    (PostgresDB.transaction { pool := some secondOpFailEnv }
        [plainTxOp "S1", plainTxOp "S2", plainTxOp "S3"]).2.countP
        Event.isStatementIssued = 4 := by
  have h := transaction_atomicity_on_statement_failure secondOpFailEnv secondOpFailClient rfl
    (fun _ => .dbResult (unmarshallPgResult okPg)) [plainTxOp "S1"] (plainTxOp "S2")
    [plainTxOp "S3"] okPg (.userError (.string "op2 boom")) rfl
    (by intro t ht; rw [List.mem_singleton] at ht; subst ht; rfl) rfl
  exact ⟨h.2.2.1 okPg rfl, h.2.1⟩

/-- Counterexample to claim C5: in a two-operation transaction whose
second statement is the first to fail (cause `"original boom"`) and
whose subsequent `ROLLBACK` also fails, the call raises a single
`QueryExecutionError` wrapping the rollback's cause, and the original
cause appears nowhere in the raised error — so "raises a single
QueryExecutionError wrapping the original cause" is false as a
universal statement over all such transactions. -/
theorem transaction_atomicity_claim_fails_when_rollback_fails :
    (PostgresDB.transaction { pool := some secondOpAndRollbackFailEnv }
        [plainTxOp "S1", plainTxOp "S2"]).1 =
      .error (.queryExecutionError rollbackErrMsg
        (some (.userError (.string "rollback boom")))) ∧
    (match (PostgresDB.transaction { pool := some secondOpAndRollbackFailEnv }
        [plainTxOp "S1", plainTxOp "S2"]).1 with
      | .error err => err.containsUserString "original boom"
      | .ok _ => true) = false :=
  ⟨rfl, rfl⟩

/-- Claim C1 (amended): in `operation` a supplied array override
entirely replaces the stored parameters — the single statement issued is
`paramCall` of the override, never of `operation.parameters`.  Inside
`transaction`, however, the precedence is reversed: the parameters
chosen for an invocation are the operation's stored parameters whenever
they are truthy (any array, including the empty one), and the
invocation's own parameters are used only when the stored parameters are
null; the statement the loop issues for the invocation is `txCallOf`
applied to that choice. -/
theorem parameter_precedence_operation_vs_transaction (env : Env) (client : ClientEnv)
    (hconn : env.connect = .ok client) (op : DBOperation) (optsParameters : JsValue)
    (harr : jsIsArray optsParameters = true) (t : TxOp) (rest : List TxOp) :
    (PostgresDB.operation { pool := some env } op optsParameters).2 =
      [Event.leaseAcquire, Event.statementIssued (paramCall op.statement optsParameters),
       Event.leaseRelease] ∧
    (jsTruthy t.operation.parameters = true → txChosenParams t = t.operation.parameters) ∧
    (jsTruthy t.operation.parameters = false → txChosenParams t = t.parameters) ∧
    (txLoop env client (t :: rest)).2.head? = some (Event.statementIssued (txCallOf t)) := by
  refine ⟨?_, fun h => by simp [txChosenParams, h], fun h => by simp [txChosenParams, h], ?_⟩
  · simp only [PostgresDB.operation, hconn, harr, if_pos]
    cases hq : client.query (paramCall op.statement optsParameters).statement
        (paramCall op.statement optsParameters).parameters with
    | error e => simp [hq]
    | ok pg => cases hm : jsTruthy op.marshaller <;> simp [hq, hm]
  · cases h : txOpResult env client t <;> simp [txLoop, h]

theorem parameter_precedence_operation_vs_transaction_witness :
    (PostgresDB.operation { pool := some envAllOk } storedParamsOp (.array [.number 2])).2 =
      [Event.leaseAcquire,
       Event.statementIssued (paramCall storedParamsOp.statement (.array [.number 2])),
       Event.leaseRelease] ∧
    (jsTruthy storedParamsOp.parameters = true →
      txChosenParams { operation := storedParamsOp, parameters := .array [.number 2] } =
        storedParamsOp.parameters) ∧
    (jsTruthy storedParamsOp.parameters = false →
      txChosenParams { operation := storedParamsOp, parameters := .array [.number 2] } =
        .array [.number 2]) ∧
    (txLoop envAllOk okClient
        [{ operation := storedParamsOp, parameters := .array [.number 2] }]).2.head? =
      some (Event.statementIssued
        (txCallOf { operation := storedParamsOp, parameters := .array [.number 2] })) :=
  parameter_precedence_operation_vs_transaction envAllOk okClient rfl storedParamsOp
    (.array [.number 2]) rfl { operation := storedParamsOp, parameters := .array [.number 2] } []

theorem query_trace (env : Env) (client : ClientEnv) (hconn : env.connect = .ok client)
    (statement : String) (optsParameters : JsValue) :
    (PostgresDB.query { pool := some env } statement optsParameters).2 =
      [Event.leaseAcquire,
       Event.statementIssued (paramCall statement
         (if jsIsArray optsParameters then optsParameters else JsValue.null)),
       Event.leaseRelease] := by
  simp only [PostgresDB.query, hconn]
  split <;> rfl

theorem operation_trace (env : Env) (client : ClientEnv) (hconn : env.connect = .ok client)
    (op : DBOperation) (optsParameters : JsValue) :
    (PostgresDB.operation { pool := some env } op optsParameters).2 =
      [Event.leaseAcquire,
       Event.statementIssued (paramCall op.statement
         (if jsIsArray optsParameters then optsParameters else op.parameters)),
       Event.leaseRelease] := by
  simp only [PostgresDB.operation, hconn]
  split
  · rfl
  · split <;> rfl

theorem transaction_lease_counts (env : Env) (client : ClientEnv)
    (hconn : env.connect = .ok client) (operations : List TxOp) :
    (PostgresDB.transaction { pool := some env } operations).2.countP Event.isRelease = 1 ∧
    (PostgresDB.transaction { pool := some env } operations).2.countP Event.isAcquire = 1 := by
  have hloop := txLoop_trace_counts env client operations
  simp only [PostgresDB.transaction, hconn]
  split
  · simp [txRollback_trace, List.countP_cons, List.countP_append,
      Event.isRelease, Event.isAcquire]
  · split
    · simp [txRollback_trace, List.countP_cons, List.countP_append,
        Event.isRelease, Event.isAcquire, hloop.1, hloop.2]
    · split <;>
        simp [txRollback_trace, List.countP_cons, List.countP_append,
          Event.isRelease, Event.isAcquire, hloop.1, hloop.2]

/-- Claim C6: for every `query`, `operation` and `transaction` call that
successfully leases a connection, the trace contains exactly one lease
release and exactly one lease acquisition, whatever the outcome —
normal return, statement failure, rollback (successful or failed) and
marshaller failure all release exactly once, never zero times and never
twice. -/
theorem lease_released_exactly_once (env : Env) (client : ClientEnv)
    (hconn : env.connect = .ok client) (statement : String) (optsParameters : JsValue)
    (operation : DBOperation) (operations : List TxOp) :
    ((PostgresDB.query { pool := some env } statement optsParameters).2.countP
        Event.isRelease = 1 ∧
     (PostgresDB.query { pool := some env } statement optsParameters).2.countP
        Event.isAcquire = 1) ∧
    ((PostgresDB.operation { pool := some env } operation optsParameters).2.countP
        Event.isRelease = 1 ∧
     (PostgresDB.operation { pool := some env } operation optsParameters).2.countP
        Event.isAcquire = 1) ∧
    ((PostgresDB.transaction { pool := some env } operations).2.countP
        Event.isRelease = 1 ∧
     (PostgresDB.transaction { pool := some env } operations).2.countP
        Event.isAcquire = 1) := by
  have h1 := query_trace env client hconn statement optsParameters
  have h2 := operation_trace env client hconn operation optsParameters
  have h3 := transaction_lease_counts env client hconn operations
  exact ⟨⟨by simp [h1, List.countP_cons, Event.isRelease, Event.isAcquire],
          by simp [h1, List.countP_cons, Event.isRelease, Event.isAcquire]⟩,
         ⟨by simp [h2, List.countP_cons, Event.isRelease, Event.isAcquire],
          by simp [h2, List.countP_cons, Event.isRelease, Event.isAcquire]⟩, h3⟩

theorem lease_released_exactly_once_witness :
    ((PostgresDB.query { pool := some marshThrowEnv } "SELECT 1" .null).2.countP
        Event.isRelease = 1 ∧
     (PostgresDB.query { pool := some marshThrowEnv } "SELECT 1" .null).2.countP
        Event.isAcquire = 1) ∧
    ((PostgresDB.operation { pool := some marshThrowEnv } marshOp .null).2.countP
        Event.isRelease = 1 ∧
     (PostgresDB.operation { pool := some marshThrowEnv } marshOp .null).2.countP
        Event.isAcquire = 1) ∧
    ((PostgresDB.transaction { pool := some marshThrowEnv }
        [{ operation := marshOp, parameters := .null }]).2.countP
        Event.isRelease = 1 ∧
     (PostgresDB.transaction { pool := some marshThrowEnv }
        [{ operation := marshOp, parameters := .null }]).2.countP
        Event.isAcquire = 1) :=
  lease_released_exactly_once marshThrowEnv okClient rfl "SELECT 1" .null marshOp
    [{ operation := marshOp, parameters := .null }]

/-- Claim C7: for a transaction whose `BEGIN`, every operation
statement, every defined marshaller and the `COMMIT` all succeed, the
returned sequence is exactly one entry per input invocation, in input
order: the entry at index i is the marshaller's output when invocation
i's operation has a (truthy) marshaller, and the normalized `DBResult`
of invocation i's statement otherwise. -/
theorem transaction_results_index_aligned (env : Env) (client : ClientEnv)
    (hconn : env.connect = .ok client) (ops : List TxOp)
    (pg : TxOp → PgResult) (m : TxOp → JsValue) (pgB pgC : PgResult)
    (hbegin : client.query "BEGIN" none = .ok pgB)
    (hcommit : client.query "COMMIT" none = .ok pgC)
    (hq : ∀ t ∈ ops, client.query (txCallOf t).statement (txCallOf t).parameters = .ok (pg t))
    (hm : ∀ t ∈ ops, jsTruthy t.operation.marshaller = true →
      callFn env t.operation.marshaller (unmarshallPgResult (pg t)) = .ok (m t)) :
    (PostgresDB.transaction { pool := some env } ops).1 =
      .ok (ops.map fun t =>
        if jsTruthy t.operation.marshaller then OpResult.marshalled (m t)
        else OpResult.dbResult (unmarshallPgResult (pg t))) ∧
    (ops.map fun t =>
        if jsTruthy t.operation.marshaller then OpResult.marshalled (m t)
        else OpResult.dbResult (unmarshallPgResult (pg t))).length = ops.length ∧
    ∀ i (hi : i < ops.length),
      (ops.map fun t =>
        if jsTruthy t.operation.marshaller then OpResult.marshalled (m t)
        else OpResult.dbResult (unmarshallPgResult (pg t))).get ⟨i, by simpa⟩ =
      (fun t =>
        if jsTruthy t.operation.marshaller then OpResult.marshalled (m t)
        else OpResult.dbResult (unmarshallPgResult (pg t))) (ops.get ⟨i, hi⟩) := by
  have hg : ∀ t ∈ ops, txOpResult env client t = .ok
      (if jsTruthy t.operation.marshaller then OpResult.marshalled (m t)
       else OpResult.dbResult (unmarshallPgResult (pg t))) := by
    intro t ht
    cases hmt : jsTruthy t.operation.marshaller with
    | true => simp [txOpResult, hq t ht, hmt, hm t ht hmt, Except.map]
    | false => simp [txOpResult, hq t ht, hmt]
  refine ⟨?_, by simp, fun i hi => by simp⟩
  simp [PostgresDB.transaction, hconn, hbegin, txLoop_ok env client _ ops hg, hcommit]

theorem transaction_results_index_aligned_witness :
    (PostgresDB.transaction { pool := some envAllOk }
        [{ operation := marshOp, parameters := .null }, plainTxOp "S1"]).1 =
      .ok [.marshalled (.string "marshalled"), .dbResult (unmarshallPgResult okPg)] := by
  have h := transaction_results_index_aligned envAllOk okClient rfl
    [{ operation := marshOp, parameters := .null }, plainTxOp "S1"]
    (fun _ => okPg) (fun _ => .string "marshalled") okPg okPg rfl rfl
    (fun t _ => rfl)
    (by
      intro t ht hmt
      simp only [List.mem_cons, List.mem_singleton] at ht
      rcases ht with rfl | rfl | h
      · rfl
      · exact absurd hmt (by decide)
      · cases h)
  simpa using h.1
